import Mathlib

/-!
Verification of the AgentCore custom-resource lifecycle controller
(`backend/lambda/agent-runtime-custom-resource/agent-runtime-custom-resource.py`)
and of the session cache of the conversational component
(`backend/JobSearchAgent/job_search_agent.py`), as a shallow embedding.

Modelling conventions:
* Backend (boto3) calls are modelled by an oracle (`Backend`) that supplies the
  outcome of each call site. `Except String A` models a Python call that either
  returns a value or raises (the `String` holds `str(exception)`).
* Python dicts with a fixed key set (the response-data dicts) are modelled as a
  structure of `Option String` fields, `none` meaning "key absent".
* Wall-clock time inside `wait_for_deletion` advances only at `time.sleep`
  calls, `check_interval = 5` seconds at a time; the second component of the
  modelled waiter is the elapsed time `time.time() - start_time` on return.
* `send_response` side effects are modelled by returning the notification that
  the HTTP PUT would carry; `lambda_handler` returns the list of notifications
  it issued together with its Python return value.
-/

/-- Python `x or default` for an optional string `x` (`None` and `""` are
falsy). -/
def pyOrStr (x : Option String) (dflt : String) : String :=
  match x with
  | some s => if s = "" then dflt else s
  | none => dflt

/-- Python truthiness test `not x` for an optional string. -/
def pyFalsyOpt : Option String → Bool
  | none => true
  | some s => s == ""

/-- Python `s.startswith(pre)`, via character lists (kernel-reducible). -/
def strStartsWith (s pre : String) : Bool :=
  List.isPrefixOf pre.data s.data

/-- Helper for Python substring containment, on character lists. -/
def listContainsSub (sub : List Char) : List Char → Bool
  | [] => sub.isEmpty
  | c :: cs => List.isPrefixOf sub (c :: cs) || listContainsSub sub cs

/-- Python `sub in s` (substring containment). -/
def strContains (s sub : String) : Bool := listContainsSub sub.data s.data

/-- Python `s.lower()` (the matched markers are ASCII). -/
def strToLower (s : String) : String := String.mk (s.data.map Char.toLower)

/-- Helper for Python `s.split(sep)` with a one-character separator. -/
def splitCharAux (sep : Char) : List Char → List Char → List String
  | [], acc => [String.mk acc.reverse]
  | c :: cs, acc =>
    if c = sep then String.mk acc.reverse :: splitCharAux sep cs []
    else splitCharAux sep cs (c :: acc)

/-- Python `s.split(sep)` with a one-character separator. -/
def splitOnChar (s : String) (sep : Char) : List String := splitCharAux sep s.data []

/-- The two environment variables the controller reads via `os.environ.get`
(`none` = variable absent). -/
structure Env where
  knowledgeBaseId : Option String
  awsRegion : Option String
deriving DecidableEq

/-- The Lambda invocation-context fields the controller uses. An empty
`invokedFunctionArn` models a falsy one. -/
structure Ctx where
  invokedFunctionArn : String
  logStreamName : String
deriving DecidableEq

/-- `construct_agent_runtime_arn` (source lines 15-22). Real Lambda function
ARNs have six colon-separated fields, so the index-4 access is modelled with a
total lookup. -/
def construct_agent_runtime_arn (env : Env) (context : Ctx)
    (agent_runtime_name : String) (agent_runtime_id : Option String) : String :=
  let region := match env.awsRegion with
    | some r => r
    | none => "us-east-1"
  let account_id :=
    if context.invokedFunctionArn ≠ "" then
      (splitOnChar context.invokedFunctionArn ':').getD 4 "unknown"
    else "unknown"
  let runtime_identifier := pyOrStr agent_runtime_id (agent_runtime_name ++ "-placeholder")
  "arn:aws:bedrock-agentcore:" ++ region ++ ":" ++ account_id ++ ":runtime/" ++ runtime_identifier

/-- The response-data dict (fixed key set across the module; `none` = key
absent). -/
structure RespData where
  AgentRuntimeArn : Option String := none
  AgentRuntimeName : Option String := none
  AgentRuntimeId : Option String := none
  KnowledgeBaseId : Option String := none
  Region : Option String := none
  Status : Option String := none
  Message : Option String := none
  Error : Option String := none
  Warning : Option String := none
  DeleteStep : Option String := none
  CreateStep : Option String := none
  EnvironmentVariables : Option String := none
deriving DecidableEq

/-- One key of Python `dict.update`: the updating dict's value wins when the
key is present there. -/
def pyDictOr (new old : Option String) : Option String :=
  match new with
  | some v => some v
  | none => old

/-- Python `d.update(u)` on the fixed key set. -/
def RespData.update (d u : RespData) : RespData where
  AgentRuntimeArn := pyDictOr u.AgentRuntimeArn d.AgentRuntimeArn
  AgentRuntimeName := pyDictOr u.AgentRuntimeName d.AgentRuntimeName
  AgentRuntimeId := pyDictOr u.AgentRuntimeId d.AgentRuntimeId
  KnowledgeBaseId := pyDictOr u.KnowledgeBaseId d.KnowledgeBaseId
  Region := pyDictOr u.Region d.Region
  Status := pyDictOr u.Status d.Status
  Message := pyDictOr u.Message d.Message
  Error := pyDictOr u.Error d.Error
  Warning := pyDictOr u.Warning d.Warning
  DeleteStep := pyDictOr u.DeleteStep d.DeleteStep
  CreateStep := pyDictOr u.CreateStep d.CreateStep
  EnvironmentVariables := pyDictOr u.EnvironmentVariables d.EnvironmentVariables

/-- Result of the backend `create_agent_runtime` API call; `response.get` may
yield `None`, hence the options. -/
structure CreateApiResp where
  agentRuntimeId : Option String
  agentRuntimeArn : Option String
deriving DecidableEq

/-- One record of the backend `list_agent_runtimes` result (the two fields the
controller reads; missing dict keys default to `""` in the source). -/
structure Runtime where
  agentRuntimeName : String
  agentRuntimeId : String
deriving DecidableEq

/-- Oracle for the backend (boto3) call outcomes, one field per call site:
client construction, the create call, the single list call inside
`delete_agent_runtime`, the delete-by-id call, and the i-th polling list call
inside `wait_for_deletion`. -/
structure Backend where
  clientInit : Except String Unit
  createApi : Except String CreateApiResp
  listApi : Except String (List Runtime)
  deleteApi : String → Except String Unit
  pollApi : Nat → Except String (List Runtime)

/-- Python `repr` of a string-or-None value (quote escaping not modelled; the
values involved carry no quotes). -/
def pyReprOpt : Option String → String
  | some s => "'" ++ s ++ "'"
  | none => "None"

/-- `str(agent_env_vars)` for the env-vars dict built at source lines 29-32. -/
def envVarsRepr (knowledge_base_id aws_region : Option String) : String :=
  "\x7b'KNOWLEDGE_BASE_ID': " ++ pyReprOpt knowledge_base_id ++
    ", 'AWS_REGION': " ++ pyReprOpt aws_region ++ "\x7d"

/-- `create_agent_runtime` (source lines 24-65). `container_uri` and
`role_arn` only feed the backend call, whose outcome the oracle supplies. -/
def create_agent_runtime (createApi : Except String CreateApiResp)
    (agent_runtime_name container_uri role_arn : String)
    (knowledge_base_id aws_region : Option String)
    (env : Env) (context : Ctx) : Except String RespData :=
  match createApi with
  | .error e => .error e
  | .ok response =>
    let agent_runtime_id := response.agentRuntimeId
    let agent_runtime_arn := response.agentRuntimeArn
    .ok { AgentRuntimeArn := some (pyOrStr agent_runtime_arn
            (construct_agent_runtime_arn env context agent_runtime_name agent_runtime_id)),
          AgentRuntimeId := some (pyOrStr agent_runtime_id agent_runtime_name),
          Status := some "Created",
          EnvironmentVariables := some (envVarsRepr knowledge_base_id aws_region) }

/-- The matching rule of the listing scans (source lines 92 and 149):
exact name equality or id starts-with name. -/
def matchesRuntime (agent_runtime_name : String) (runtime : Runtime) : Bool :=
  runtime.agentRuntimeName == agent_runtime_name ||
    strStartsWith runtime.agentRuntimeId agent_runtime_name

/-- The first-match scan over the listing (source lines 84-95 inside
`delete_agent_runtime`, duplicated at lines 144-153 inside
`wait_for_deletion`). -/
def findRuntimeId (agent_runtime_name : String) : List Runtime → Option String
  | [] => none
  | runtime :: rest =>
    if matchesRuntime agent_runtime_name runtime then some runtime.agentRuntimeId
    else findRuntimeId agent_runtime_name rest

/-- The error classification of `delete_agent_runtime`'s except branch
(source line 116). -/
def isNotFoundError (error_message : String) : Bool :=
  strContains error_message "ResourceNotFoundException" ||
    strContains (strToLower error_message) "not found"

/-- The except branch of `delete_agent_runtime` (source lines 111-124). -/
def classifyDeleteError (response_data : RespData)
    (agent_runtime_name error_message : String) : RespData :=
  if isNotFoundError error_message then
    { response_data with
      Status := some "Already Deleted",
      Message := some ("Agent runtime " ++ agent_runtime_name ++
        " was already deleted or never existed") }
  else
    { response_data with
      Status := some "Delete Attempted",
      Message := some ("Delete attempted but encountered error: " ++ error_message) }

/-- `delete_agent_runtime` (source lines 67-126). The `try` covers both the
list call and the delete call, so either raising lands in the error
classification. The function is total: it never propagates an exception. -/
def delete_agent_runtime (listApi : Except String (List Runtime))
    (deleteApi : String → Except String Unit)
    (agent_runtime_name : String) (env : Env) (context : Ctx) : RespData :=
  let response_data : RespData :=
    { AgentRuntimeArn :=
        some (construct_agent_runtime_arn env context agent_runtime_name none),
      AgentRuntimeName := some agent_runtime_name }
  match listApi with
  | .error e => classifyDeleteError response_data agent_runtime_name e
  | .ok runtimes =>
    match findRuntimeId agent_runtime_name runtimes with
    | none =>
      { response_data with
        Status := some "Runtime Not Found - Assuming Already Deleted",
        Message := some ("No runtime found with name " ++ agent_runtime_name ++
          ", assuming already deleted") }
    | some agent_runtime_id =>
      match deleteApi agent_runtime_id with
      | .ok _ =>
        { response_data with
          Status := some "Deleted",
          Message := some ("Agent runtime " ++ agent_runtime_name ++
            " (ID: " ++ agent_runtime_id ++ ") deletion initiated") }
      | .error e => classifyDeleteError response_data agent_runtime_name e

/-- One poll of the waiter loop body (source lines 138-166): `true` when the
listing succeeded and showed no match ("successfully deleted"); a raising
listing is swallowed and treated like "still exists". -/
def pollGone (polls : Nat → Except String (List Runtime))
    (agent_runtime_name : String) (i : Nat) : Bool :=
  match polls i with
  | .ok runtimes => (findRuntimeId agent_runtime_name runtimes).isNone
  | .error _ => false

/-- The `while time.time() - start_time < max_wait_seconds` loop of
`wait_for_deletion`, with time discretized at the sleeps: iteration `i` runs
at elapsed time `check_interval * i`, and `fuel` is the number of iterations
for which the while-condition still holds. Returns the Python result together
with the elapsed time at return. -/
def waitLoop (polls : Nat → Except String (List Runtime))
    (agent_runtime_name : String) (check_interval : Nat) :
    Nat → Nat → Bool × Nat
  | i, 0 => (false, check_interval * i)
  | i, fuel + 1 =>
    if pollGone polls agent_runtime_name i then (true, check_interval * i)
    else waitLoop polls agent_runtime_name check_interval (i + 1) fuel

/-- `wait_for_deletion` (source lines 128-170), `check_interval = 5`. The
first component is the Python return value; the second is the modelled elapsed
time at return. `(max_wait_seconds + 4) / 5` is the number of loop iterations
`i` with `5 * i < max_wait_seconds`. -/
def wait_for_deletion (polls : Nat → Except String (List Runtime))
    (agent_runtime_name : String) (max_wait_seconds : Nat) : Bool × Nat :=
  waitLoop polls agent_runtime_name 5 0 ((max_wait_seconds + 4) / 5)

/-- Terminal status of a CloudFormation custom-resource response. -/
inductive CfnStatus
  | SUCCESS
  | FAILED
deriving DecidableEq

/-- The fields of the inbound CloudFormation event that the handler consumes
(guaranteed present by the custom-resource request contract, spec section 6;
`PhysicalResourceId` is optional and read with `event.get`). -/
structure ResourceProps where
  AgentRuntimeName : String
  ContainerUri : String
  RoleArn : String
deriving DecidableEq

structure Event where
  RequestType : String
  ResourceProperties : ResourceProps
  PhysicalResourceId : Option String
  ResponseURL : String
  StackId : String
  RequestId : String
  LogicalResourceId : String
deriving DecidableEq

/-- The JSON envelope that `send_response` PUTs to the callback URL
(source lines 316-324). -/
structure Notification where
  Status : CfnStatus
  Reason : String
  PhysicalResourceId : String
  StackId : String
  RequestId : String
  LogicalResourceId : String
  Data : RespData
deriving DecidableEq

/-- `send_response` (source lines 310-337), modelled as producing the envelope
it sends; a transport error is swallowed (logged only), so the envelope is
issued in every case. -/
def send_response (event : Event) (context : Ctx) (response_status : CfnStatus)
    (response_data : RespData) (physical_resource_id : String) : Notification :=
  { Status := response_status,
    Reason := "See CloudWatch Log Stream: " ++ context.logStreamName,
    PhysicalResourceId := physical_resource_id,
    StackId := event.StackId,
    RequestId := event.RequestId,
    LogicalResourceId := event.LogicalResourceId,
    Data := response_data }

/-- The Python return value of `lambda_handler` (`body` is JSON-dumped in the
source). -/
structure HandlerResult where
  statusCode : Nat
  body : RespData
deriving DecidableEq

/-- The shared success tail of `lambda_handler` (source lines 289-295 and
308): backfill the ARN if falsy, send SUCCESS, return 200. -/
def finishSuccess (event : Event) (context : Ctx) (env : Env)
    (agent_runtime_name physical_resource_id : String)
    (response_data : RespData) : List Notification × HandlerResult :=
  let rd :=
    if pyFalsyOpt response_data.AgentRuntimeArn = true then
      { response_data with
        AgentRuntimeArn :=
          some (construct_agent_runtime_arn env context agent_runtime_name none) }
    else response_data
  ([send_response event context CfnStatus.SUCCESS rd physical_resource_id],
   { statusCode := 200, body := rd })

/-- `lambda_handler` (source lines 172-308). The first component collects the
`send_response` calls in order; the second is the Python return value. -/
def lambda_handler (b : Backend) (env : Env) (event : Event) (context : Ctx) :
    List Notification × HandlerResult :=
  let knowledge_base_id := env.knowledgeBaseId
  let aws_region := env.awsRegion
  let request_type := event.RequestType
  let agent_runtime_name := event.ResourceProperties.AgentRuntimeName
  let container_uri := event.ResourceProperties.ContainerUri
  let role_arn := event.ResourceProperties.RoleArn
  let response_data : RespData :=
    { AgentRuntimeArn := some (construct_agent_runtime_arn env context agent_runtime_name none),
      AgentRuntimeName := some agent_runtime_name,
      KnowledgeBaseId := some (pyOrStr knowledge_base_id "Not Set"),
      Region := some (pyOrStr aws_region "Not Set") }
  let physical_resource_id :=
    if request_type = "Create" then "agent-runtime-" ++ agent_runtime_name ++ "-stable"
    else event.PhysicalResourceId.getD ("agent-runtime-" ++ agent_runtime_name ++ "-stable")
  match b.clientInit with
  | .error e =>
    let error_response_data : RespData :=
      { Error := some e,
        AgentRuntimeArn := some (construct_agent_runtime_arn env context agent_runtime_name none),
        AgentRuntimeName := some agent_runtime_name }
    ([send_response event context CfnStatus.FAILED error_response_data physical_resource_id],
     { statusCode := 200, body := response_data })
  | .ok _ =>
    if request_type = "Create" then
      match create_agent_runtime b.createApi agent_runtime_name container_uri role_arn
          knowledge_base_id aws_region env context with
      | .error create_error =>
        let rd := { response_data with
          AgentRuntimeArn := some (construct_agent_runtime_arn env context agent_runtime_name none),
          Status := some "Creation Failed",
          Error := some create_error }
        ([send_response event context CfnStatus.FAILED rd physical_resource_id],
         { statusCode := 500, body := rd })
      | .ok create_response =>
        finishSuccess event context env agent_runtime_name physical_resource_id
          (response_data.update create_response)
    else if request_type = "Update" then
      let delete_response := delete_agent_runtime b.listApi b.deleteApi
        agent_runtime_name env context
      if delete_response.Status = some "Deleted" ∨
          delete_response.Status = some "Already Deleted" then
        let response_data :=
          if delete_response.Status = some "Deleted" then
            if (wait_for_deletion b.pollApi agent_runtime_name 90).1 = false then
              { response_data with
                Warning := some "Deletion wait timed out but proceeding with creation" }
            else response_data
          else response_data
        match create_agent_runtime b.createApi agent_runtime_name container_uri role_arn
            knowledge_base_id aws_region env context with
        | .error update_error =>
          let rd := { response_data with
            AgentRuntimeArn := some (construct_agent_runtime_arn env context agent_runtime_name none),
            Status := some "Update Failed",
            Error := some update_error }
          ([send_response event context CfnStatus.FAILED rd physical_resource_id],
           { statusCode := 500, body := rd })
        | .ok create_response =>
          let rd := response_data.update create_response
          let rd := { rd with
            Status := some "Updated (Deleted and Recreated)",
            Message := some ("Agent runtime " ++ agent_runtime_name ++
              " updated by deleting old runtime and creating new one"),
            DeleteStep := delete_response.Status,
            CreateStep := create_response.Status }
          finishSuccess event context env agent_runtime_name physical_resource_id rd
      else
        let rd0 := response_data.update delete_response
        let rd := { rd0 with
          Status := some "Update Failed - Delete Step Failed",
          Message := some ("Update failed because delete step failed: " ++
            delete_response.Message.getD "Unknown error") }
        ([send_response event context CfnStatus.FAILED rd physical_resource_id],
         { statusCode := 500, body := rd })
    else if request_type = "Delete" then
      let delete_response := delete_agent_runtime b.listApi b.deleteApi
        agent_runtime_name env context
      finishSuccess event context env agent_runtime_name physical_resource_id
        (response_data.update delete_response)
    else
      let rd := { response_data with
        AgentRuntimeArn := some (construct_agent_runtime_arn env context agent_runtime_name none),
        Status := some ("Unexpected Request Type: " ++ request_type),
        Message := some ("Received unexpected request type: " ++ request_type) }
      finishSuccess event context env agent_runtime_name physical_resource_id rd

/-! ## Session cache of the conversational component
(`backend/JobSearchAgent/job_search_agent.py`). Distinct `Agent` objects are
identified by an allocation counter: `nextAgent` is the id the next
`_create_agent()` call returns. -/

/-- Python truthiness of the optional `session_id` (`None` and `""` are
falsy). -/
def pyTruthyOpt : Option String → Bool
  | none => false
  | some s => s != ""

/-- The process-wide cache state: `JobSearchAgent._session_agents` plus the
allocation counter identifying `Agent` objects by creation order. -/
structure SessionState where
  sessionAgents : List (String × Nat)
  nextAgent : Nat
deriving DecidableEq

/-- `JobSearchAgent._create_agent` (source lines 45-74): allocates a fresh
`Agent`. -/
def createAgent (st : SessionState) : SessionState × Nat :=
  ({ sessionAgents := st.sessionAgents, nextAgent := st.nextAgent + 1 }, st.nextAgent)

/-- `JobSearchAgent.__init__` (source lines 25-43): returns the new cache
state and the `Agent` bound to `self.agent`. -/
def initJobSearchAgent (session_id : Option String) (st : SessionState) :
    SessionState × Nat :=
  if pyTruthyOpt session_id = true then
    let sid := session_id.getD ""
    match st.sessionAgents.lookup sid with
    | some agent => (st, agent)
    | none =>
      let fresh := createAgent st
      ({ sessionAgents := (sid, fresh.2) :: fresh.1.sessionAgents,
         nextAgent := fresh.1.nextAgent }, fresh.2)
  else
    createAgent st

/-- `JobSearchAgent.clear_session` (source lines 89-95), for an instance whose
`self.session_id` is `session_id`. -/
def clear_session (session_id : Option String) (st : SessionState) : SessionState :=
  if pyTruthyOpt session_id = true ∧
      (st.sessionAgents.lookup (session_id.getD "")).isSome = true then
    { sessionAgents := st.sessionAgents.filter (fun p => p.1 != session_id.getD ""),
      nextAgent := st.nextAgent }
  else st

/-- Whether a response-data dict carries a present, non-empty
`AgentRuntimeArn`. -/
def hasNonEmptyArn (d : RespData) : Bool :=
  match d.AgentRuntimeArn with
  | some s => s != ""
  | none => false

/-! ## Supporting lemmas -/

theorem construct_ne_empty (env : Env) (context : Ctx)
    (agent_runtime_name : String) (agent_runtime_id : Option String) :
    construct_agent_runtime_arn env context agent_runtime_name agent_runtime_id ≠ "" := by
  unfold construct_agent_runtime_arn
  intro h
  have hlen := congrArg String.length h
  simp only [String.length_append] at hlen
  have h26 : ("arn:aws:bedrock-agentcore:" : String).length = 26 := by decide
  have h0 : ("" : String).length = 0 := by decide
  omega

theorem pyOrStr_ne_empty (x : Option String) (dflt : String) (hd : dflt ≠ "") :
    pyOrStr x dflt ≠ "" := by
  unfold pyOrStr
  cases x with
  | none => exact hd
  | some s =>
    by_cases hs : s = ""
    · simpa [hs] using hd
    · simpa [hs] using hs

theorem pyFalsyOpt_of_ne (s : String) (hs : s ≠ "") :
    pyFalsyOpt (some s) = false := by
  simp [pyFalsyOpt, hs]

theorem delete_agent_runtime_arn (listApi : Except String (List Runtime))
    (deleteApi : String → Except String Unit)
    (agent_runtime_name : String) (env : Env) (context : Ctx) :
    (delete_agent_runtime listApi deleteApi agent_runtime_name env context).AgentRuntimeArn =
      some (construct_agent_runtime_arn env context agent_runtime_name none) := by
  unfold delete_agent_runtime classifyDeleteError
  dsimp only
  repeat' split
  all_goals rfl

theorem finishSuccess_length (event : Event) (context : Ctx) (env : Env)
    (agent_runtime_name physical_resource_id : String) (response_data : RespData) :
    ((finishSuccess event context env agent_runtime_name physical_resource_id
      response_data).1).length = 1 := rfl

theorem finishSuccess_all_arn (event : Event) (context : Ctx) (env : Env)
    (agent_runtime_name physical_resource_id : String) (response_data : RespData) :
    ((finishSuccess event context env agent_runtime_name physical_resource_id
      response_data).1).all (fun n => hasNonEmptyArn n.Data) = true := by
  unfold finishSuccess
  dsimp only
  split
  · simp [send_response, hasNonEmptyArn, construct_ne_empty]
  · rename_i h
    have harn : hasNonEmptyArn response_data = true := by
      unfold pyFalsyOpt at h
      unfold hasNonEmptyArn
      cases ha : response_data.AgentRuntimeArn with
      | none => rw [ha] at h; simp at h
      | some s =>
        rw [ha] at h
        simp only [beq_iff_eq] at h
        simp [h]
    simp [send_response, harn]

theorem waitLoop_elapsed_le (polls : Nat → Except String (List Runtime))
    (agent_runtime_name : String) (check_interval : Nat) (i fuel : Nat) :
    (waitLoop polls agent_runtime_name check_interval i fuel).2 ≤
      check_interval * (i + fuel) := by
  induction fuel generalizing i with
  | zero =>
    simp [waitLoop]
  | succ f ih =>
    rw [waitLoop]
    split
    · exact Nat.mul_le_mul_left check_interval (Nat.le_add_right i (f + 1))
    · calc (waitLoop polls agent_runtime_name check_interval (i + 1) f).2
          ≤ check_interval * ((i + 1) + f) := ih (i + 1)
        _ = check_interval * (i + (f + 1)) := by ring

theorem waitLoop_true_iff (polls : Nat → Except String (List Runtime))
    (agent_runtime_name : String) (check_interval : Nat) (i fuel : Nat) :
    (waitLoop polls agent_runtime_name check_interval i fuel).1 = true ↔
      ∃ k, k < fuel ∧ pollGone polls agent_runtime_name (i + k) = true ∧
        ∀ j, j < k → pollGone polls agent_runtime_name (i + j) = false := by
  induction fuel generalizing i with
  | zero => simp [waitLoop]
  | succ f ih =>
    rw [waitLoop]
    by_cases h : pollGone polls agent_runtime_name i = true
    · rw [if_pos h]
      constructor
      · intro _
        exact ⟨0, Nat.succ_pos f, by simpa using h,
               fun j hj => absurd hj (Nat.not_lt_zero j)⟩
      · intro _
        rfl
    · rw [if_neg h]
      have h0 : pollGone polls agent_runtime_name i = false := by
        revert h
        cases pollGone polls agent_runtime_name i <;> simp
      rw [ih (i + 1)]
      constructor
      · rintro ⟨k, hk, hg, hprev⟩
        refine ⟨k + 1, Nat.succ_lt_succ hk, ?_, ?_⟩
        · have e : i + (k + 1) = (i + 1) + k := by omega
          rw [e]
          exact hg
        · intro j hj
          cases j with
          | zero => simpa using h0
          | succ j' =>
            have hp := hprev j' (by omega)
            have e : i + (j' + 1) = (i + 1) + j' := by omega
            rw [e]
            exact hp
      · rintro ⟨k, hk, hg, hprev⟩
        cases k with
        | zero =>
          exfalso
          rw [Nat.add_zero] at hg
          rw [h0] at hg
          exact Bool.false_ne_true hg
        | succ k' =>
          refine ⟨k', by omega, ?_, ?_⟩
          · have e : (i + 1) + k' = i + (k' + 1) := by omega
            rw [e]
            exact hg
          · intro j hj
            have hp := hprev (j + 1) (by omega)
            have e : (i + 1) + j = i + (j + 1) := by omega
            rw [e]
            exact hp

/-! ## Claims -/

/-- Claim C5: the Runtime Locator returns the internal identifier of the first
record in list order whose name equals the target or whose identifier starts
with the target, and not-found on an empty or non-matching list; in particular
target "job-agent-prod" on the one-record list resolves to "xyz123" while
target "job-agent" yields not-found. -/
theorem C5_runtime_locator :
    (∀ (agent_runtime_name : String) (runtimes : List Runtime),
      findRuntimeId agent_runtime_name runtimes =
        (runtimes.find? (matchesRuntime agent_runtime_name)).map
          (fun r => r.agentRuntimeId))
    ∧ findRuntimeId "job-agent-prod" [⟨"job-agent-prod", "xyz123"⟩] = some "xyz123"
    ∧ findRuntimeId "job-agent" [⟨"job-agent-prod", "xyz123"⟩] = none
    ∧ (∀ agent_runtime_name : String, findRuntimeId agent_runtime_name [] = none) := by
  refine ⟨?_, by decide, by decide, fun _ => rfl⟩
  intro name runtimes
  induction runtimes with
  | nil => rfl
  | cons r rest ih =>
    by_cases h : matchesRuntime name r = true
    · simp [findRuntimeId, List.find?_cons_of_pos, h]
    · simp [findRuntimeId, List.find?_cons_of_neg, h, ih]

/-- Claim C6: the Deletion Waiter returns within `max_wait_seconds` plus one
poll interval (5s) of modelled elapsed time, and it returns `True` exactly
when some poll within the wait window finds no matching runtime while every
earlier poll either still saw the runtime or raised (a raising poll is
swallowed, `pollGone = false`, and the loop continues). -/
theorem C6_deletion_waiter (polls : Nat → Except String (List Runtime))
    (agent_runtime_name : String) (max_wait_seconds : Nat) :
    (wait_for_deletion polls agent_runtime_name max_wait_seconds).2 ≤
      max_wait_seconds + 5
    ∧ ((wait_for_deletion polls agent_runtime_name max_wait_seconds).1 = true ↔
        ∃ i, 5 * i < max_wait_seconds ∧
          pollGone polls agent_runtime_name i = true ∧
          ∀ j, j < i → pollGone polls agent_runtime_name j = false) := by
  constructor
  · have h := waitLoop_elapsed_le polls agent_runtime_name 5 0 ((max_wait_seconds + 4) / 5)
    unfold wait_for_deletion
    omega
  · have h := waitLoop_true_iff polls agent_runtime_name 5 0 ((max_wait_seconds + 4) / 5)
    unfold wait_for_deletion
    rw [h]
    constructor
    · rintro ⟨k, hk, hg, hp⟩
      exact ⟨k, by omega, by simpa using hg, fun j hj => by simpa using hp j hj⟩
    · rintro ⟨k, hk, hg, hp⟩
      exact ⟨k, by omega, by simpa using hg, fun j hj => by simpa using hp j hj⟩

/-- Witness for C6 at a concrete polling oracle: the first poll raises (and is
swallowed), the second finds nothing, so the waiter confirms within bound. -/
theorem C6_deletion_waiter_witness :
    (wait_for_deletion
        (fun i => if i = 0 then Except.error "transient" else Except.ok [])
        "agent" 60).2 ≤ 65
    ∧ (wait_for_deletion
        (fun i => if i = 0 then Except.error "transient" else Except.ok [])
        "agent" 60).1 = true := by
  constructor
  · exact (C6_deletion_waiter
      (fun i => if i = 0 then Except.error "transient" else Except.ok [])
      "agent" 60).1
  · refine (C6_deletion_waiter
      (fun i => if i = 0 then Except.error "transient" else Except.ok [])
      "agent" 60).2.mpr ⟨1, by omega, by decide, ?_⟩
    intro j hj
    have hj0 : j = 0 := by omega
    subst hj0
    decide

/-- Claim C4: `delete_agent_runtime` never raises and never yields a fatal
outcome: locator miss gives "Runtime Not Found - Assuming Already Deleted"; a
backend error whose text matches the not-found markers gives "Already
Deleted"; any other backend error gives "Delete Attempted" with the error text
in the message; and the status is always one of the four non-fatal values (so
repeated deletes of an absent name get the not-found status every time). -/
theorem C4_delete_never_fatal (listApi : Except String (List Runtime))
    (deleteApi : String → Except String Unit) (agent_runtime_name : String)
    (env : Env) (context : Ctx) :
    ((delete_agent_runtime listApi deleteApi agent_runtime_name env context).Status =
        some "Runtime Not Found - Assuming Already Deleted"
      ∨ (delete_agent_runtime listApi deleteApi agent_runtime_name env context).Status =
        some "Already Deleted"
      ∨ (delete_agent_runtime listApi deleteApi agent_runtime_name env context).Status =
        some "Delete Attempted"
      ∨ (delete_agent_runtime listApi deleteApi agent_runtime_name env context).Status =
        some "Deleted")
    ∧ (∀ runtimes, listApi = Except.ok runtimes →
        findRuntimeId agent_runtime_name runtimes = none →
        (delete_agent_runtime listApi deleteApi agent_runtime_name env context).Status =
          some "Runtime Not Found - Assuming Already Deleted")
    ∧ (∀ runtimes id e, listApi = Except.ok runtimes →
        findRuntimeId agent_runtime_name runtimes = some id →
        deleteApi id = Except.error e → isNotFoundError e = true →
        (delete_agent_runtime listApi deleteApi agent_runtime_name env context).Status =
          some "Already Deleted")
    ∧ (∀ runtimes id e, listApi = Except.ok runtimes →
        findRuntimeId agent_runtime_name runtimes = some id →
        deleteApi id = Except.error e → isNotFoundError e = false →
        (delete_agent_runtime listApi deleteApi agent_runtime_name env context).Status =
          some "Delete Attempted"
        ∧ (delete_agent_runtime listApi deleteApi agent_runtime_name env context).Message =
          some ("Delete attempted but encountered error: " ++ e)) := by
  refine ⟨?_, ?_, ?_, ?_⟩
  · unfold delete_agent_runtime classifyDeleteError
    dsimp only
    repeat' split
    · rename_i h
      right; left; rfl
    · right; right; left; rfl
    · left; rfl
    · right; right; right; rfl
    · right; left; rfl
    · right; right; left; rfl
  · intro runtimes hl hf
    simp [delete_agent_runtime, hl, hf]
  · intro runtimes id e hl hf hd hnf
    simp [delete_agent_runtime, hl, hf, hd, classifyDeleteError, hnf]
  · intro runtimes id e hl hf hd hnf
    simp [delete_agent_runtime, hl, hf, hd, classifyDeleteError, hnf]

/-- Witness for C4 at concrete inputs: an empty listing, a delete call raising
a not-found error, and a delete call raising an unrelated error. -/
theorem C4_delete_never_fatal_witness :
    (delete_agent_runtime (Except.ok []) (fun _ => Except.ok ()) "job-agent"
        ⟨none, none⟩ ⟨"", "ls"⟩).Status =
      some "Runtime Not Found - Assuming Already Deleted"
    ∧ (delete_agent_runtime (Except.ok [⟨"job-agent", "ja-1"⟩])
        (fun _ => Except.error "ResourceNotFoundException: gone") "job-agent"
        ⟨none, none⟩ ⟨"", "ls"⟩).Status = some "Already Deleted"
    ∧ (delete_agent_runtime (Except.ok [⟨"job-agent", "ja-1"⟩])
        (fun _ => Except.error "AccessDenied") "job-agent"
        ⟨none, none⟩ ⟨"", "ls"⟩).Status = some "Delete Attempted" := by
  refine ⟨?_, ?_, ?_⟩
  · exact (C4_delete_never_fatal (Except.ok []) (fun _ => Except.ok ()) "job-agent"
      ⟨none, none⟩ ⟨"", "ls"⟩).2.1 [] rfl (by decide)
  · exact (C4_delete_never_fatal (Except.ok [⟨"job-agent", "ja-1"⟩])
      (fun _ => Except.error "ResourceNotFoundException: gone") "job-agent"
      ⟨none, none⟩ ⟨"", "ls"⟩).2.2.1 [⟨"job-agent", "ja-1"⟩] "ja-1"
      "ResourceNotFoundException: gone" rfl (by decide) rfl (by decide)
  · exact ((C4_delete_never_fatal (Except.ok [⟨"job-agent", "ja-1"⟩])
      (fun _ => Except.error "AccessDenied") "job-agent"
      ⟨none, none⟩ ⟨"", "ls"⟩).2.2.2 [⟨"job-agent", "ja-1"⟩] "ja-1"
      "AccessDenied" rfl (by decide) rfl (by decide)).1

/-- Claim C1: every invocation of the dispatcher issues exactly one terminal
notification (a `send_response`, necessarily SUCCESS or FAILED) before
returning, across Create, Update, Delete, unexpected request types, and every
error path. -/
theorem C1_exactly_one_notification (b : Backend) (env : Env) (event : Event)
    (context : Ctx) :
    ((lambda_handler b env event context).1).length = 1 := by
  unfold lambda_handler
  dsimp only
  repeat' split
  all_goals rfl

theorem handler_pid_map (b : Backend) (env : Env) (event : Event) (context : Ctx) :
    ((lambda_handler b env event context).1).map (fun n => n.PhysicalResourceId) =
      [if event.RequestType = "Create" then
         "agent-runtime-" ++ event.ResourceProperties.AgentRuntimeName ++ "-stable"
       else event.PhysicalResourceId.getD
         ("agent-runtime-" ++ event.ResourceProperties.AgentRuntimeName ++ "-stable")] := by
  unfold lambda_handler
  dsimp only
  by_cases hc : event.RequestType = "Create"
  · simp only [if_pos hc]
    repeat' split
    all_goals rfl
  · simp only [if_neg hc]
    repeat' split
    all_goals rfl

/-- Claim C3: the PhysicalResourceId sent in the notification is, on Create, a
pure deterministic function of the resource name alone; on Update/Delete it is
exactly the PhysicalResourceId supplied in the incoming event, independent of
any backend state. -/
theorem C3_physical_identity (b : Backend) (env : Env) (event : Event)
    (context : Ctx) :
    (event.RequestType = "Create" →
      ((lambda_handler b env event context).1).map (fun n => n.PhysicalResourceId) =
        ["agent-runtime-" ++ event.ResourceProperties.AgentRuntimeName ++ "-stable"])
    ∧ ((event.RequestType = "Update" ∨ event.RequestType = "Delete") →
      ∀ p, event.PhysicalResourceId = some p →
        ((lambda_handler b env event context).1).map (fun n => n.PhysicalResourceId) =
          [p]) := by
  constructor
  · intro h
    rw [handler_pid_map]
    simp [h]
  · intro h p hp
    rw [handler_pid_map]
    have hne : event.RequestType ≠ "Create" := by
      rcases h with h | h <;> rw [h] <;> decide
    rw [if_neg hne, hp]
    rfl

/-- Witness for C3: a concrete Create invocation carries the stable token, and
a concrete Update invocation echoes the supplied PhysicalResourceId. -/
theorem C3_physical_identity_witness :
    ((lambda_handler
        { clientInit := Except.ok (), createApi := Except.ok ⟨some "id1", some "arn1"⟩,
          listApi := Except.ok [], deleteApi := fun _ => Except.ok (),
          pollApi := fun _ => Except.ok [] }
        ⟨some "kb", some "us-east-1"⟩
        { RequestType := "Create", ResourceProperties := ⟨"job-agent", "uri", "role"⟩,
          PhysicalResourceId := none, ResponseURL := "u", StackId := "s",
          RequestId := "r", LogicalResourceId := "l" }
        ⟨"arn:aws:lambda:us-east-1:123456789012:function:fn", "ls"⟩).1).map
      (fun n => n.PhysicalResourceId) = ["agent-runtime-job-agent-stable"]
    ∧ ((lambda_handler
        { clientInit := Except.ok (), createApi := Except.ok ⟨some "id1", some "arn1"⟩,
          listApi := Except.ok [], deleteApi := fun _ => Except.ok (),
          pollApi := fun _ => Except.ok [] }
        ⟨some "kb", some "us-east-1"⟩
        { RequestType := "Update", ResourceProperties := ⟨"job-agent", "uri", "role"⟩,
          PhysicalResourceId := some "prior-physical-id", ResponseURL := "u",
          StackId := "s", RequestId := "r", LogicalResourceId := "l" }
        ⟨"arn:aws:lambda:us-east-1:123456789012:function:fn", "ls"⟩).1).map
      (fun n => n.PhysicalResourceId) = ["prior-physical-id"] := by
  constructor
  · exact (C3_physical_identity
      { clientInit := Except.ok (), createApi := Except.ok ⟨some "id1", some "arn1"⟩,
        listApi := Except.ok [], deleteApi := fun _ => Except.ok (),
        pollApi := fun _ => Except.ok [] }
      ⟨some "kb", some "us-east-1"⟩
      { RequestType := "Create", ResourceProperties := ⟨"job-agent", "uri", "role"⟩,
        PhysicalResourceId := none, ResponseURL := "u", StackId := "s",
        RequestId := "r", LogicalResourceId := "l" }
      ⟨"arn:aws:lambda:us-east-1:123456789012:function:fn", "ls"⟩).1 rfl
  · exact (C3_physical_identity
      { clientInit := Except.ok (), createApi := Except.ok ⟨some "id1", some "arn1"⟩,
        listApi := Except.ok [], deleteApi := fun _ => Except.ok (),
        pollApi := fun _ => Except.ok [] }
      ⟨some "kb", some "us-east-1"⟩
      { RequestType := "Update", ResourceProperties := ⟨"job-agent", "uri", "role"⟩,
        PhysicalResourceId := some "prior-physical-id", ResponseURL := "u",
        StackId := "s", RequestId := "r", LogicalResourceId := "l" }
      ⟨"arn:aws:lambda:us-east-1:123456789012:function:fn", "ls"⟩).2
      (Or.inl rfl) "prior-physical-id" rfl

/-- Claim C9: every notification sent - on success, FAILED, and catch-all
paths - carries a present, non-empty AgentRuntimeArn in its Data: a
constructed placeholder ARN is backfilled whenever the operation result
omitted or blanked it. -/
theorem C9_arn_always_nonempty (b : Backend) (env : Env) (event : Event)
    (context : Ctx) :
    ((lambda_handler b env event context).1).all
      (fun n => hasNonEmptyArn n.Data) = true := by
  unfold lambda_handler
  dsimp only
  repeat' split
  all_goals first
    | apply finishSuccess_all_arn
    | simp [send_response, hasNonEmptyArn, RespData.update, pyDictOr,
        delete_agent_runtime_arn, construct_ne_empty]

/-- Claim C7: an Update whose delete sub-step succeeded ("Deleted") but whose
deletion wait timed out still proceeds to Create, records the timeout warning
in the result data, and on successful creation reports SUCCESS with final
status "Updated (Deleted and Recreated)". -/
theorem C7_update_wait_timeout (b : Backend) (env : Env) (event : Event)
    (context : Ctx) (runtimes : List Runtime) (rid : String) (cr : CreateApiResp)
    (hci : b.clientInit = Except.ok ())
    (hrt : event.RequestType = "Update")
    (hl : b.listApi = Except.ok runtimes)
    (hf : findRuntimeId event.ResourceProperties.AgentRuntimeName runtimes = some rid)
    (hd : b.deleteApi rid = Except.ok ())
    (hw : (wait_for_deletion b.pollApi event.ResourceProperties.AgentRuntimeName 90).1 = false)
    (hc : b.createApi = Except.ok cr) :
    ((lambda_handler b env event context).1).map
      (fun n => (n.Status, n.Data.Status, n.Data.Warning)) =
      [(CfnStatus.SUCCESS, some "Updated (Deleted and Recreated)",
        some "Deletion wait timed out but proceeding with creation")] := by
  have hst : (delete_agent_runtime b.listApi b.deleteApi
      event.ResourceProperties.AgentRuntimeName env context).Status = some "Deleted" := by
    simp [delete_agent_runtime, hl, hf, hd]
  have hfal : pyFalsyOpt (some (pyOrStr cr.agentRuntimeArn
      (construct_agent_runtime_arn env context
        event.ResourceProperties.AgentRuntimeName cr.agentRuntimeId))) = false :=
    pyFalsyOpt_of_ne _ (pyOrStr_ne_empty _ _ (construct_ne_empty env context
      event.ResourceProperties.AgentRuntimeName cr.agentRuntimeId))
  unfold lambda_handler
  simp [hci, hrt, hst, hw, hc, create_agent_runtime, finishSuccess,
    RespData.update, pyDictOr, hfal, send_response]

/-- Witness for C7: a concrete Update where the runtime is found and deleted,
every poll still sees it (so the 90s wait times out), and the create call
succeeds. -/
theorem C7_update_wait_timeout_witness :
    ((lambda_handler
        { clientInit := Except.ok (), createApi := Except.ok ⟨some "ja-new", some "arn:new"⟩,
          listApi := Except.ok [⟨"job-agent", "ja-old"⟩],
          deleteApi := fun _ => Except.ok (),
          pollApi := fun _ => Except.ok [⟨"job-agent", "ja-old"⟩] }
        ⟨some "kb", some "us-east-1"⟩
        { RequestType := "Update", ResourceProperties := ⟨"job-agent", "uri", "role"⟩,
          PhysicalResourceId := some "agent-runtime-job-agent-stable", ResponseURL := "u",
          StackId := "s", RequestId := "r", LogicalResourceId := "l" }
        ⟨"arn:aws:lambda:us-east-1:123456789012:function:fn", "ls"⟩).1).map
      (fun n => (n.Status, n.Data.Status, n.Data.Warning)) =
      [(CfnStatus.SUCCESS, some "Updated (Deleted and Recreated)",
        some "Deletion wait timed out but proceeding with creation")] := by
  exact C7_update_wait_timeout
    { clientInit := Except.ok (), createApi := Except.ok ⟨some "ja-new", some "arn:new"⟩,
      listApi := Except.ok [⟨"job-agent", "ja-old"⟩],
      deleteApi := fun _ => Except.ok (),
      pollApi := fun _ => Except.ok [⟨"job-agent", "ja-old"⟩] }
    ⟨some "kb", some "us-east-1"⟩
    { RequestType := "Update", ResourceProperties := ⟨"job-agent", "uri", "role"⟩,
      PhysicalResourceId := some "agent-runtime-job-agent-stable", ResponseURL := "u",
      StackId := "s", RequestId := "r", LogicalResourceId := "l" }
    ⟨"arn:aws:lambda:us-east-1:123456789012:function:fn", "ls"⟩
    [⟨"job-agent", "ja-old"⟩] "ja-old" ⟨some "ja-new", some "arn:new"⟩
    rfl rfl rfl (by decide) rfl (by decide) rfl

/-- Claim C8: a Create invocation whose backend create call raises terminates
with a single FAILED notification carrying status "Creation Failed" and the
error text in the Error field (and HTTP-style 500 return), with no internal
retry - in contrast with the Delete path, which notifies SUCCESS for any
backend outcome. -/
theorem C8_create_failure_fatal (b : Backend) (env : Env) (event : Event)
    (context : Ctx) (e : String)
    (hci : b.clientInit = Except.ok ())
    (hrt : event.RequestType = "Create")
    (hc : b.createApi = Except.error e) :
    ((lambda_handler b env event context).1).map
      (fun n => (n.Status, n.Data.Status, n.Data.Error)) =
      [(CfnStatus.FAILED, some "Creation Failed", some e)]
    ∧ (lambda_handler b env event context).2.statusCode = 500
    ∧ ∀ event2 : Event, event2.RequestType = "Delete" →
        ((lambda_handler b env event2 context).1).map (fun n => n.Status) =
          [CfnStatus.SUCCESS] := by
  refine ⟨?_, ?_, ?_⟩
  · unfold lambda_handler
    simp [hci, hrt, create_agent_runtime, hc, send_response]
  · unfold lambda_handler
    simp [hci, hrt, create_agent_runtime, hc]
  · intro event2 h2
    unfold lambda_handler
    simp [hci, h2, finishSuccess, send_response]

/-- Witness for C8: a concrete Create whose backend call raises
"ValidationException: bad image", and the same backend serving a Delete. -/
theorem C8_create_failure_fatal_witness :
    ((lambda_handler
        { clientInit := Except.ok (),
          createApi := Except.error "ValidationException: bad image",
          listApi := Except.ok [], deleteApi := fun _ => Except.ok (),
          pollApi := fun _ => Except.ok [] }
        ⟨some "kb", some "us-east-1"⟩
        { RequestType := "Create", ResourceProperties := ⟨"job-agent", "uri", "role"⟩,
          PhysicalResourceId := none, ResponseURL := "u", StackId := "s",
          RequestId := "r", LogicalResourceId := "l" }
        ⟨"arn:aws:lambda:us-east-1:123456789012:function:fn", "ls"⟩).1).map
      (fun n => (n.Status, n.Data.Status, n.Data.Error)) =
      [(CfnStatus.FAILED, some "Creation Failed", some "ValidationException: bad image")]
    ∧ ((lambda_handler
        { clientInit := Except.ok (),
          createApi := Except.error "ValidationException: bad image",
          listApi := Except.ok [], deleteApi := fun _ => Except.ok (),
          pollApi := fun _ => Except.ok [] }
        ⟨some "kb", some "us-east-1"⟩
        { RequestType := "Delete", ResourceProperties := ⟨"job-agent", "uri", "role"⟩,
          PhysicalResourceId := some "agent-runtime-job-agent-stable", ResponseURL := "u",
          StackId := "s", RequestId := "r", LogicalResourceId := "l" }
        ⟨"arn:aws:lambda:us-east-1:123456789012:function:fn", "ls"⟩).1).map
      (fun n => n.Status) = [CfnStatus.SUCCESS] := by
  constructor
  · exact (C8_create_failure_fatal
      { clientInit := Except.ok (),
        createApi := Except.error "ValidationException: bad image",
        listApi := Except.ok [], deleteApi := fun _ => Except.ok (),
        pollApi := fun _ => Except.ok [] }
      ⟨some "kb", some "us-east-1"⟩
      { RequestType := "Create", ResourceProperties := ⟨"job-agent", "uri", "role"⟩,
        PhysicalResourceId := none, ResponseURL := "u", StackId := "s",
        RequestId := "r", LogicalResourceId := "l" }
      ⟨"arn:aws:lambda:us-east-1:123456789012:function:fn", "ls"⟩
      "ValidationException: bad image" rfl rfl rfl).1
  · exact (C8_create_failure_fatal
      { clientInit := Except.ok (),
        createApi := Except.error "ValidationException: bad image",
        listApi := Except.ok [], deleteApi := fun _ => Except.ok (),
        pollApi := fun _ => Except.ok [] }
      ⟨some "kb", some "us-east-1"⟩
      { RequestType := "Create", ResourceProperties := ⟨"job-agent", "uri", "role"⟩,
        PhysicalResourceId := none, ResponseURL := "u", StackId := "s",
        RequestId := "r", LogicalResourceId := "l" }
      ⟨"arn:aws:lambda:us-east-1:123456789012:function:fn", "ls"⟩
      "ValidationException: bad image" rfl rfl rfl).2.2
      { RequestType := "Delete", ResourceProperties := ⟨"job-agent", "uri", "role"⟩,
        PhysicalResourceId := some "agent-runtime-job-agent-stable", ResponseURL := "u",
        StackId := "s", RequestId := "r", LogicalResourceId := "l" } rfl

/-- Claim C2 is contradicted by the code: on an Update whose delete sub-step
finds no matching runtime, `delete_agent_runtime` returns the benign status
"Runtime Not Found - Assuming Already Deleted" (second conjunct), but the
dispatcher's acceptance list at source line 237 contains only "Deleted" and
"Already Deleted", so the Update is aborted as a delete-step failure and
FAILED is sent (first conjunct) instead of proceeding to Create with SUCCESS
"Updated (Deleted and Recreated)" as the claim states. -/
theorem C2_code_divergence :
    ((lambda_handler
        { clientInit := Except.ok (), createApi := Except.ok ⟨some "new-id", some "arn:new"⟩,
          listApi := Except.ok [], deleteApi := fun _ => Except.ok (),
          pollApi := fun _ => Except.ok [] }
        ⟨some "kb", some "us-east-1"⟩
        { RequestType := "Update", ResourceProperties := ⟨"job-agent", "uri", "role"⟩,
          PhysicalResourceId := some "agent-runtime-job-agent-stable", ResponseURL := "u",
          StackId := "s", RequestId := "r", LogicalResourceId := "l" }
        ⟨"arn:aws:lambda:us-east-1:123456789012:function:fn", "ls"⟩).1).map
      (fun n => (n.Status, n.Data.Status)) =
      [(CfnStatus.FAILED, some "Update Failed - Delete Step Failed")]
    ∧ (delete_agent_runtime (Except.ok []) (fun _ => Except.ok ()) "job-agent"
        ⟨some "kb", some "us-east-1"⟩
        ⟨"arn:aws:lambda:us-east-1:123456789012:function:fn", "ls"⟩).Status =
      some "Runtime Not Found - Assuming Already Deleted" := by
  constructor
  · decide
  · decide

theorem lookup_filter_key_none (sid : String) (l : List (String × Nat)) :
    (l.filter (fun p => p.1 != sid)).lookup sid = none := by
  induction l with
  | nil => rfl
  | cons p t ih =>
    obtain ⟨k, v⟩ := p
    by_cases h : k = sid
    · simp [List.filter_cons, h, ih]
    · have hb : ((k, v).1 != sid) = true := by simp [h]
      have hk : (sid == k) = false := by
        simp only [beq_eq_false_iff_ne, ne_eq]
        exact fun he => h he.symm
      simp [List.filter_cons, hb, List.lookup, hk, ih]

theorem lookup_after_clear (sid : String) (hsid : sid ≠ "") (st : SessionState) :
    ((clear_session (some sid) st).sessionAgents).lookup sid = none := by
  unfold clear_session
  split
  · exact lookup_filter_key_none sid st.sessionAgents
  · rename_i h
    have ht : pyTruthyOpt (some sid) = true := by simp [pyTruthyOpt, hsid]
    cases hl : st.sessionAgents.lookup sid with
    | none => rfl
    | some a =>
      exfalso
      exact h ⟨ht, by simp [hl]⟩

/-- Counterexample to claim C10 as stated: `session_id = ""` is non-None, yet
Python's truthiness test sends it down the fresh-agent branch, so a second
construction with the same session id binds a different Agent (allocation 1,
not the first construction's allocation 0). -/
theorem C10_counterexample :
    ¬ ((initJobSearchAgent (some "")
          (initJobSearchAgent (some "") ⟨[], 0⟩).1).2 =
        (initJobSearchAgent (some "") ⟨[], 0⟩).2) := by decide

/-- Claim C10 (amended to non-empty session ids): for every non-empty
session_id, a second construction binds the same Agent as the first and
creates no new Agent (the cache state is unchanged); construction with
session_id = None always creates a fresh Agent; and after clear_session the
next construction with that id allocates a new Agent. -/
theorem C10_session_cache :
    (∀ (sid : String) (st : SessionState), sid ≠ "" →
      (initJobSearchAgent (some sid) (initJobSearchAgent (some sid) st).1).2 =
        (initJobSearchAgent (some sid) st).2
      ∧ (initJobSearchAgent (some sid) (initJobSearchAgent (some sid) st).1).1 =
        (initJobSearchAgent (some sid) st).1)
    ∧ (∀ st : SessionState,
      (initJobSearchAgent none st).2 = st.nextAgent
      ∧ (initJobSearchAgent none (initJobSearchAgent none st).1).2 ≠
          (initJobSearchAgent none st).2)
    ∧ (∀ (sid : String) (st : SessionState), sid ≠ "" →
      (initJobSearchAgent (some sid) (clear_session (some sid) st)).2 =
        (clear_session (some sid) st).nextAgent
      ∧ ((initJobSearchAgent (some sid) (clear_session (some sid) st)).1).nextAgent =
        (clear_session (some sid) st).nextAgent + 1) := by
  refine ⟨?_, ?_, ?_⟩
  · intro sid st hs
    have ht : pyTruthyOpt (some sid) = true := by simp [pyTruthyOpt, hs]
    cases hl : st.sessionAgents.lookup sid with
    | some a => constructor <;> simp [initJobSearchAgent, ht, hl]
    | none => constructor <;> simp [initJobSearchAgent, ht, hl, createAgent, List.lookup]
  · intro st
    constructor
    · simp [initJobSearchAgent, pyTruthyOpt, createAgent]
    · simp [initJobSearchAgent, pyTruthyOpt, createAgent]
  · intro sid st hs
    have ht : pyTruthyOpt (some sid) = true := by simp [pyTruthyOpt, hs]
    have hl := lookup_after_clear sid hs st
    constructor <;> simp [initJobSearchAgent, ht, hl, createAgent]

/-- Witness for C10 (amended) at concrete inputs: session id "abc" from the
empty cache, and a clear-then-reconstruct on a cache holding "abc". -/
theorem C10_session_cache_witness :
    (initJobSearchAgent (some "abc") (initJobSearchAgent (some "abc") ⟨[], 0⟩).1).2 =
      (initJobSearchAgent (some "abc") ⟨[], 0⟩).2
    ∧ (initJobSearchAgent none ⟨[], 5⟩).2 = 5
    ∧ (initJobSearchAgent (some "abc") (clear_session (some "abc") ⟨[("abc", 0)], 1⟩)).2 =
      (clear_session (some "abc") ⟨[("abc", 0)], 1⟩).nextAgent := by
  refine ⟨?_, ?_, ?_⟩
  · exact (C10_session_cache.1 "abc" ⟨[], 0⟩ (by decide)).1
  · exact (C10_session_cache.2.1 ⟨[], 5⟩).1
  · exact (C10_session_cache.2.2 "abc" ⟨[("abc", 0)], 1⟩ (by decide)).1
